import Mathlib

/-!
Verification of the RT data-quality pipeline of `dlab/BEH.py`
(`Project.get_RTdata` and its local helpers `_remove_extremes`,
`_identify_missing_data`, `_filter_outliers`).

The embedding follows the source line by line:

* a data-frame row is a `Record`; the numeric-RT pre-filter of line 233
  (`pd.to_numeric(...).notnull()`) is reflected by typing `rt : ℚ`;
* `_remove_extremes` (lines 125-140) adds the `RTremove` band produced by
  `pd.cut(df.RT, [0, low, high, inf])` (right-closed bins, values outside
  `(0, inf)` get no label) and the strictly-windowed `RTremoveVal`;
* `_identify_missing_data` (lines 142-182) groups by
  (PPT, Condition, WordPos); a group is "missing" when every row of the
  group has null `RTremoveVal` (the grouped mean of that column is then
  NaN; the other numeric columns RT and Item are never null, so
  `.isnull().any(axis=1)` fires exactly on those groups).  The by-item
  check of lines 176-181 only prints and is therefore not modelled as a
  transformation;
* `outliers` (lines 186-193) computes the pandas sample mean / standard
  deviation (ddof = 1, NaN skipped), substitutes 0.1 for a NaN standard
  deviation (count < 2), clamps with two sequential `mask` calls and labels
  with `pd.cut(group, [-inf, lower, upper, inf])`; `pd.cut` validates its
  explicit bin edges (default `duplicates="raise"`), so a group whose
  bounds collapse (`lower == upper`, e.g. zero variance with two or more
  observations, or `SD = 0`) raises `ValueError: Bin edges must be
  unique`, and decreasing edges (`SD < 0`) raise
  `ValueError: bins must increase monotonically`;
* `get_RTdata` (lines 220-283) sequences validation and the three stages
  on a copy of `self.data` and finally stores the result in `self.RTdata`.
-/

namespace DlabBEH

/-- Band labels produced by `pd.cut`. -/
inductive Band
  | Below
  | Ok
  | Above
deriving DecidableEq

/-- One row of the data frame handed to the pipeline, after the numeric-RT
filter of line 233; the five required columns PPT, Condition, Item,
WordPos, RT. -/
structure Record where
  ppt : Nat
  cond : String
  item : Nat
  wordPos : Int
  rt : ℚ
deriving DecidableEq

/-- Line 126: `pd.cut(df.RT, [0, low, high, inf], labels=[Below,Ok,Above])`.
`pd.cut` bins are right-closed and left-open, so the bins are
`(0, low] ↦ Below`, `(low, high] ↦ Ok`, `(high, inf) ↦ Above`, and a value
outside all bins (`rt ≤ 0`) receives no label (NaN). -/
def cutExtremeBand (low high rt : ℚ) : Option Band :=
  if 0 < rt ∧ rt ≤ low then some Band.Below
  else if low < rt ∧ rt ≤ high then some Band.Ok
  else if high < rt then some Band.Above
  else none

/-- Lines 127-129: `RTremoveVal` is `RT` exactly when
`(RT < high) & (RT > low)` and NaN otherwise. -/
def rtRemoveValOf (low high rt : ℚ) : Option ℚ :=
  if low < rt ∧ rt < high then some rt else none

/-- A row after `_remove_extremes`: the original columns plus the
`RTremove` band and the `RTremoveVal` filtered value. -/
structure FRecord where
  row : Record
  rtRemove : Option Band
  rtRemoveVal : Option ℚ
deriving DecidableEq

/-- The helper `_remove_extremes` (lines 125-140): adds the two derived columns; no
row is dropped (the summary printing has no effect on the frame). -/
def removeExtremes (low high : ℚ) (df : List Record) : List FRecord :=
  df.map fun r => ⟨r, cutExtremeBand low high r.rt, rtRemoveValOf low high r.rt⟩

/-- A grouping key `(entity, Condition, WordPos)` where the entity is the
PPT (participant perspective) or the Item (item perspective). -/
abbrev GroupKey := Nat × String × Int

/-- The participant-perspective key of line 143. -/
def pptKey (r : FRecord) : GroupKey := (r.row.ppt, r.row.cond, r.row.wordPos)

/-- The item-perspective key of line 176. -/
def itemKey (r : FRecord) : GroupKey := (r.row.item, r.row.cond, r.row.wordPos)

/-- The rows of one `groupby` group. -/
def groupRows (key : FRecord → GroupKey) (df : List FRecord) (k : GroupKey) :
    List FRecord :=
  df.filter fun r => decide (key r = k)

/-- Line 144: the group keys whose grouped mean row contains a NaN.  `RT`
and `Item` are never null, so this is exactly the set of keys all of whose
rows have null `RTremoveVal`. -/
def missingKeys (key : FRecord → GroupKey) (df : List FRecord) : List GroupKey :=
  ((df.map key).dedup).filter fun k =>
    (groupRows key df k).all fun r => r.rtRemoveVal.isNone

/-- The `missing_by_ppt` series of line 144. -/
def missingByPpt (df : List FRecord) : List GroupKey := missingKeys pptKey df

/-- The `missing_by_item` series of line 177 (report-only in the source). -/
def missingByItem (df : List FRecord) : List GroupKey := missingKeys itemKey df

/-- The `Condition` component of a group key. -/
def condOf (k : GroupKey) : String := k.2.1

/-- The entity (PPT or Item) component of a group key. -/
def pptOf (k : GroupKey) : Nat := k.1

/-- The `critical_conditions_in_data` list of lines 150-153: the provided critical
conditions that occur among the conditions of the missing groups. -/
def criticalInData (critical : List String) (df : List FRecord) : List String :=
  critical.filter fun c => decide (c ∈ ((missingByPpt df).map condOf).dedup)

/-- The `inelig_ppts` index of line 159: the distinct participants owning a missing
group in a critical condition. -/
def ineligPpts (critical : List String) (df : List FRecord) : List Nat :=
  (((missingByPpt df).filter fun k =>
      decide (condOf k ∈ criticalInData critical df)).map pptOf).dedup

/-- The `missing_by_ppt_filler` list of line 158: the distinct conditions of the
missing groups whose condition is not critical. -/
def fillerConds (critical : List String) (df : List FRecord) : List String :=
  (((missingByPpt df).filter fun k =>
      decide (condOf k ∉ criticalInData critical df)).map condOf).dedup

/-- The helper `_identify_missing_data` (lines 142-174).  If there are no missing
participant groups, or `critical_conditions` is empty, or no missing group
has a critical condition, the frame is returned unchanged; otherwise the
ineligible participants are dropped (line 162) and afterwards, when the
filler missing set is non-empty, the filler conditions are dropped
(line 168).  The by-item pass (lines 176-181) only prints. -/
def identifyMissingData (critical : List String) (df : List FRecord) :
    List FRecord :=
  if missingByPpt df = [] then df
  else if critical = [] then df
  else if criticalInData critical df = [] then df
  else if fillerConds critical df = [] then
    df.filter fun r => decide (r.row.ppt ∉ ineligPpts critical df)
  else
    (df.filter fun r => decide (r.row.ppt ∉ ineligPpts critical df)).filter
      fun r => decide (r.row.cond ∉ fillerConds critical df)

/-- Python exceptions raised by `get_RTdata`. -/
inductive PyError
  | nameError (name : String)
  | valueError (msg : String)
  | keyError (key : String)
deriving DecidableEq

/-- The values of a group's `RTremoveVal` series that are not NaN; pandas
`mean`/`std`/`count` skip NaN by default. -/
def definedVals (g : List (Option ℚ)) : List ℚ := g.filterMap id

/-- pandas `Series.mean` over the defined values. -/
def qMean (xs : List ℚ) : ℚ := xs.sum / (xs.length : ℚ)

/-- pandas `Series.var` with the default `ddof = 1` (sample variance). -/
def qSampleVar (xs : List ℚ) : ℚ :=
  (xs.map fun x => (x - qMean xs) ^ 2).sum / ((xs.length : ℚ) - 1)

/-- Lines 187-189: `std = group.std()`, `if np.isnan(std): std = 0.1`.
pandas `std` (ddof = 1) is NaN exactly when the group has fewer than two
defined observations; otherwise it is the non-negative square root of the
sample variance (a zero-variance group therefore gives 0.0, which is not
NaN). -/
noncomputable def stdWithFallback (xs : List ℚ) : ℝ :=
  if xs.length < 2 then 0.1 else Real.sqrt (qSampleVar xs)

/-- Line 190: `lower, upper = mean - SD*std, mean + SD*std`. -/
noncomputable def winsorBounds (k : ℚ) (g : List (Option ℚ)) : ℝ × ℝ :=
  ((qMean (definedVals g) : ℝ) - k * stdWithFallback (definedVals g),
   (qMean (definedVals g) : ℝ) + k * stdWithFallback (definedVals g))

/-- Line 192's `pd.cut(group, [NINF, lower, upper, inf])` classification of
one value, valid only for strictly increasing, duplicate-free edges
(`lower < upper`): right-closed bins `(-inf, lower] ↦ Below`,
`(lower, upper] ↦ Ok`, `(upper, inf) ↦ Above`.  The edge validation that
`pd.cut` performs before classifying is modelled in `outliers`, where the
call occurs. -/
noncomputable def cutBand3 (lower upper v : ℝ) : Band :=
  if v ≤ lower then Band.Below else if v ≤ upper then Band.Ok else Band.Above

/-- Line 191: `group.mask(group < lower, lower).mask(group > upper, upper)`,
the two masks applied in sequence. -/
noncomputable def trimVal (lower upper v : ℝ) : ℝ :=
  if (if v < lower then lower else v) > upper then upper
  else (if v < lower then lower else v)

/-- One entry of the frame returned by `outliers` (lines 186-193): the
label and trimmed value for one row of the group.  A NaN entry compares
false against both bounds, so it is neither labelled nor changed. -/
noncomputable def winsorRow (k : ℚ) (g : List (Option ℚ)) :
    Option ℚ → Option Band × Option ℝ
  | none => (none, none)
  | some v =>
    (some (cutBand3 (winsorBounds k g).1 (winsorBounds k g).2 v),
     some (trimVal (winsorBounds k g).1 (winsorBounds k g).2 v))

/-- The `outliers` group function of lines 186-193 applied to one group's
`RTremoveVal` series.  `pd.cut` on line 192 validates its explicit bin
edges `[NINF, lower, upper, inf]` first: decreasing edges raise
`ValueError("bins must increase monotonically")` and duplicated edges
(here `lower = upper`, since the outer edges are infinite) raise
`ValueError("Bin edges must be unique")` under the default
`duplicates="raise"`; the exception aborts the group function, so no
labelled/trimmed frame is produced.  Otherwise every row gets its
label/trimmed pair. -/
noncomputable def outliers (k : ℚ) (g : List (Option ℚ)) :
    Except PyError (List (Option Band × Option ℝ)) :=
  if (winsorBounds k g).2 < (winsorBounds k g).1 then
    Except.error (PyError.valueError "bins must increase monotonically")
  else if (winsorBounds k g).1 = (winsorBounds k g).2 then
    Except.error (PyError.valueError "Bin edges must be unique")
  else
    Except.ok (g.map (winsorRow k g))

/-- The error of an `Except`, when there is one. -/
def errOf {α : Type} : Except PyError α → Option PyError
  | Except.error e => some e
  | Except.ok _ => none

/-- Line 223. -/
def requiredColumns : List String := ["PPT", "WordPos", "Condition", "Item", "RT"]

/-- Lines 225-231.  The loop body is `missing.append(col)` but no name
`col` is in scope (the loop variable is `column`), so CPython raises
`NameError: name 'col' is not defined` at the first missing required
column; the `raise ValueError(...)` line is never reached (it is itself
broken: `(", ",join(missing))` misspells `", ".join`). -/
def validateRequiredColumns (cols : List String) : Except PyError Unit :=
  if requiredColumns.all fun c => cols.contains c then Except.ok ()
  else Except.error (PyError.nameError "col")

/-- Lines 235-241 for a list of strings: every provided critical condition
must occur in the data's `Condition` column. -/
def validateCriticalConditions (critical : List String) (df : List Record) :
    Except PyError Unit :=
  if critical.all fun c => (df.map Record.cond).contains c then Except.ok ()
  else Except.error (PyError.valueError
    "All conditions provided in critical_conditions must be in supplied self.data")

/-- A row of `self.RTdata`: the base columns, the `_remove_extremes`
columns when that stage ran, and the two winsorization column pairs when
`_filter_outliers` ran. -/
structure OutRecord where
  row : Record
  ext : Option (Option Band × Option ℚ)
  byPpt : Option (Option Band × Option ℝ)
  byItem : Option (Option Band × Option ℝ)

/-- The helper `_filter_outliers` (lines 184-218) with the default `ppt = items =
True`: both perspectives group the `RTremoveVal` column and write their
label/value pair; `groupby(...).apply(outliers, ...)` aligns the result
back to each row by index.  If `outliers` raises on some group (degenerate
`pd.cut` bin edges), the exception aborts the whole pass: the by-ppt apply
of line 197 runs first, then the by-item apply of line 208, so a by-ppt
group error surfaces before any by-item one.  (Within one pass the raised
message is the same for every failing group whenever `SD ≥ 0` — the only
case the pipeline lets through — so the group visiting order is
unobservable.) -/
noncomputable def winsorizeAll (k : ℚ) (df : List FRecord) :
    Except PyError (List OutRecord) :=
  match df.findSome? (fun r =>
      errOf (outliers k ((groupRows pptKey df (pptKey r)).map FRecord.rtRemoveVal))) with
  | some e => Except.error e
  | none =>
    match df.findSome? (fun r =>
        errOf (outliers k ((groupRows itemKey df (itemKey r)).map FRecord.rtRemoveVal))) with
    | some e => Except.error e
    | none =>
      Except.ok (df.map fun r =>
        { row := r.row
          ext := some (r.rtRemove, r.rtRemoveVal)
          byPpt := some (winsorRow k
            ((groupRows pptKey df (pptKey r)).map FRecord.rtRemoveVal) r.rtRemoveVal)
          byItem := some (winsorRow k
            ((groupRows itemKey df (itemKey r)).map FRecord.rtRemoveVal) r.rtRemoveVal) })

/-- The mutable attributes touched by `get_RTdata`: the source frame
`self.data` (its column list and its rows after the numeric-RT filter) and
the result slot `self.RTdata`. -/
structure ProjectState where
  dataCols : List String
  data : List Record
  RTdata : Option (List OutRecord)

/-- The method `get_RTdata` (lines 220-283) as a state transformer.  Arguments mirror
`critical_conditions`, `summarize`, `remove_extremes` (a window pair or
skipped), `identify_missing_data` and `filter_outliers` (an SD or
skipped).  Faithful error paths:

* missing required column → `NameError "col"` (lines 225-231, see
  `validateRequiredColumns`);
* unknown critical condition → `ValueError` (line 239);
* `summarize` with an empty frame → `ValueError "no conds loaded"`
  (line 253);
* `low ≥ high` → `ValueError` (line 264);
* an empty frame reaching `_remove_extremes` or `_filter_outliers` hits
  `below*100/total` with `total = 0` (lines 137, 204; the inner
  `summarize` defaults to `True` on both calls) → `ZeroDivisionError`,
  modelled here as a `valueError` carrying that name;
* skipping `remove_extremes` while running `_identify_missing_data` or
  `_filter_outliers` dereferences the absent `RTremoveVal` column
  (lines 144, 197) → `KeyError "RTremoveVal"`;
* negative `filter_outliers` → `ValueError` (line 275).

Every success writes only `RTdata` (line 282); `self.data` is read through
the copy made on line 233 and never assigned.  `get_RTdata_frames`
computes the frame that line 282 stores; `get_RTdata` performs that single
state write. -/
noncomputable def get_RTdata_frames (critical : List String) (summarize : Bool)
    (rex : Option (ℚ × ℚ)) (identify : Bool) (fo : Option ℚ)
    (s : ProjectState) : Except PyError (List OutRecord) :=
  match validateRequiredColumns s.dataCols with
  | Except.error e => Except.error e
  | Except.ok _ =>
    match validateCriticalConditions critical s.data with
    | Except.error e => Except.error e
    | Except.ok _ =>
      if summarize && s.data.isEmpty then
        Except.error (PyError.valueError "no conds loaded")
      else
        match rex with
        | some (low, high) =>
          if low < high then
            if s.data.isEmpty then
              Except.error (PyError.valueError "ZeroDivisionError")
            else
              let df1 := removeExtremes low high s.data
              let df2 := if identify then identifyMissingData critical df1 else df1
              match fo with
              | some k =>
                if k < 0 then
                  Except.error (PyError.valueError
                    "SD provided to filter_outliers must be a positive int or float")
                else if df2.isEmpty then
                  Except.error (PyError.valueError "ZeroDivisionError")
                else
                  winsorizeAll k df2
              | none =>
                Except.ok (df2.map fun r =>
                  OutRecord.mk r.row (some (r.rtRemove, r.rtRemoveVal)) none none)
          else
            Except.error (PyError.valueError
              "Ensure the provided low value is lower than the provided high value.")
        | none =>
          if identify then Except.error (PyError.keyError "RTremoveVal")
          else
            match fo with
            | some k =>
              if k < 0 then
                Except.error (PyError.valueError
                  "SD provided to filter_outliers must be a positive int or float")
              else Except.error (PyError.keyError "RTremoveVal")
            | none =>
              Except.ok (s.data.map fun r => ⟨r, none, none, none⟩)

/-- The method `get_RTdata` proper: run the pipeline and store the resulting frame in
`self.RTdata` (line 282), the method's only state write. -/
noncomputable def get_RTdata (critical : List String) (summarize : Bool)
    (rex : Option (ℚ × ℚ)) (identify : Bool) (fo : Option ℚ)
    (s : ProjectState) : Except PyError ProjectState :=
  (get_RTdata_frames critical summarize rex identify fo s).map
    fun out => { s with RTdata := some out }

/-! ### Helper lemmas on the extreme-value filter -/

lemma cutExtremeBand_ok_iff (low high rt : ℚ) :
    cutExtremeBand low high rt = some Band.Ok ↔ low < rt ∧ rt ≤ high := by
  unfold cutExtremeBand
  split_ifs with h1 h2 h3
  · simp only [Option.some.injEq]
    constructor
    · intro h; cases h
    · rintro ⟨a, _⟩; exact absurd h1.2 (not_le.mpr a)
  · exact iff_of_true rfl h2
  · simp only [Option.some.injEq]
    constructor
    · intro h; cases h
    · rintro ⟨_, b⟩; exact absurd h3 (not_lt.mpr b)
  · constructor
    · intro h; cases h
    · intro h; exact absurd h h2

lemma cutExtremeBand_below (low high rt : ℚ) (h : 0 < rt ∧ rt ≤ low) :
    cutExtremeBand low high rt = some Band.Below := by
  unfold cutExtremeBand; rw [if_pos h]

lemma cutExtremeBand_above (low high rt : ℚ) (hlh : low < high) (h : high < rt) :
    cutExtremeBand low high rt = some Band.Above := by
  unfold cutExtremeBand
  rw [if_neg (by rintro ⟨_, hle⟩; linarith), if_neg (by rintro ⟨_, hle⟩; linarith),
    if_pos h]

lemma cutExtremeBand_nan (low high rt : ℚ) (h0 : 0 < low) (hlh : low < high)
    (h : rt ≤ 0) : cutExtremeBand low high rt = none := by
  unfold cutExtremeBand
  rw [if_neg (by rintro ⟨hpos, _⟩; linarith), if_neg (by rintro ⟨hlt, _⟩; linarith),
    if_neg (by intro hlt; linarith)]

lemma rtRemoveValOf_isSome_iff (low high rt : ℚ) :
    (rtRemoveValOf low high rt).isSome ↔ low < rt ∧ rt < high := by
  unfold rtRemoveValOf
  split_ifs with h <;> simp [h]

lemma rtRemoveValOf_eq_some (low high rt v : ℚ)
    (h : rtRemoveValOf low high rt = some v) : v = rt ∧ low < rt ∧ rt < high := by
  unfold rtRemoveValOf at h
  split_ifs at h with hw
  exact ⟨(Option.some.injEq _ _ ▸ h).symm, hw⟩

/-! ### Claim C5 -/

/-- Claim C5, counterexample: at `RT = high` (window `(200, 5000)`,
`RT = 5000`) the band label is `Ok` while `RTremoveVal` is undefined, so
"label = Ok iff value defined" fails at the upper boundary. -/
theorem band_ok_at_high_counterexample :
    (removeExtremes 200 5000 [⟨1, "A", 1, 1, 5000⟩]).map
      (fun fr => (fr.rtRemove, fr.rtRemoveVal.isSome)) = [(some Band.Ok, false)] := by
  decide

/-- Claim C5 (amended): after the extreme filter, whenever
`RTremoveVal` is defined it equals a value strictly inside the window and
the band is `Ok`; the value is defined iff `low < RT < high`; but the band
is `Ok` iff `low < RT ≤ high`, so the stated equivalence holds except at
`RT = high`, where the label is `Ok` and the value undefined. -/
theorem extreme_filter_band_value_relation (low high : ℚ) (df : List Record) :
    ∀ fr ∈ removeExtremes low high df,
      (∀ v : ℚ, fr.rtRemoveVal = some v →
        fr.rtRemove = some Band.Ok ∧ low < v ∧ v < high)
      ∧ (fr.rtRemove = some Band.Ok ↔ low < fr.row.rt ∧ fr.row.rt ≤ high)
      ∧ (fr.rtRemoveVal.isSome ↔ low < fr.row.rt ∧ fr.row.rt < high) := by
  intro fr hfr
  unfold removeExtremes at hfr
  rw [List.mem_map] at hfr
  obtain ⟨r, _, rfl⟩ := hfr
  refine ⟨?_, cutExtremeBand_ok_iff low high r.rt,
    rtRemoveValOf_isSome_iff low high r.rt⟩
  intro v hv
  obtain ⟨hveq, h1, h2⟩ := rtRemoveValOf_eq_some low high r.rt v hv
  subst hveq
  exact ⟨(cutExtremeBand_ok_iff _ _ _).mpr ⟨h1, le_of_lt h2⟩, h1, h2⟩

/-- Claim C5, witness: a record with `RT = 300` and window `(200, 5000)`
has a defined value `300`, band `Ok` and `200 < 300 < 5000`. -/
theorem extreme_filter_band_value_relation_witness :
    (⟨⟨1, "A", 1, 1, 300⟩, some Band.Ok, some 300⟩ : FRecord).rtRemove
        = some Band.Ok
      ∧ (200 : ℚ) < 300 ∧ (300 : ℚ) < 5000 :=
  (extreme_filter_band_value_relation 200 5000 [⟨1, "A", 1, 1, 300⟩]
    ⟨⟨1, "A", 1, 1, 300⟩, some Band.Ok, some 300⟩ (by decide)).1 300 rfl

/-! ### Claim C6 -/

/-- Claim C6, counterexample: with window `(200, 5000)`, `RT = high = 5000`
is labelled `Ok` (the claim says `Above`), and `RT = 0` receives no band
label at all (the claim says every numeric RT gets one). -/
theorem band_at_boundaries_counterexample :
    cutExtremeBand 200 5000 5000 = some Band.Ok
    ∧ some Band.Ok ≠ some Band.Above
    ∧ cutExtremeBand 200 5000 0 = none := by
  decide

/-- Claim C6 (amended): `pd.cut` with right-closed bins `[0, low, high, ∞]`
assigns `Below` on `(0, low]`, `Ok` on `(low, high]`, `Above` on
`(high, ∞)`, and no label when `RT ≤ 0`. -/
theorem extreme_band_classification (low high : ℚ) (h0 : 0 < low)
    (hlh : low < high) (rt : ℚ) :
    (0 < rt ∧ rt ≤ low → cutExtremeBand low high rt = some Band.Below)
    ∧ (low < rt ∧ rt ≤ high → cutExtremeBand low high rt = some Band.Ok)
    ∧ (high < rt → cutExtremeBand low high rt = some Band.Above)
    ∧ (rt ≤ 0 → cutExtremeBand low high rt = none) :=
  ⟨fun h => cutExtremeBand_below low high rt h,
   fun h => (cutExtremeBand_ok_iff low high rt).mpr h,
   fun h => cutExtremeBand_above low high rt hlh h,
   fun h => cutExtremeBand_nan low high rt h0 hlh h⟩

/-- Claim C6, witness: the four bands at the window `(200, 5000)` on the
inputs `100`, `300`, `6000` and `-5`. -/
theorem extreme_band_classification_witness :
    cutExtremeBand 200 5000 100 = some Band.Below
    ∧ cutExtremeBand 200 5000 300 = some Band.Ok
    ∧ cutExtremeBand 200 5000 6000 = some Band.Above
    ∧ cutExtremeBand 200 5000 (-5) = none :=
  ⟨(extreme_band_classification 200 5000 (by norm_num) (by norm_num) 100).1
      ⟨by norm_num, by norm_num⟩,
   (extreme_band_classification 200 5000 (by norm_num) (by norm_num) 300).2.1
      ⟨by norm_num, by norm_num⟩,
   (extreme_band_classification 200 5000 (by norm_num) (by norm_num) 6000).2.2.1
      (by norm_num),
   (extreme_band_classification 200 5000 (by norm_num) (by norm_num) (-5)).2.2.2
      (by norm_num)⟩

/-! ### Claim C9 -/

/-- Claim C9: with an empty `criticalConditions` list the missing-data
stage returns the record set unchanged: no participant and no condition is
removed, however many groups are missing (the missing groups are only
printed). -/
theorem no_exclusion_without_critical_conditions (df : List FRecord) :
    identifyMissingData [] df = df := by
  unfold identifyMissingData
  split
  · rfl
  · simp

/-! ### Claims C1 and C4 -/

lemma mem_missingByPpt_of (df : List FRecord) (r0 : FRecord) (hr0 : r0 ∈ df)
    (hall : ∀ r ∈ df, pptKey r = pptKey r0 → r.rtRemoveVal = none) :
    pptKey r0 ∈ missingByPpt df := by
  unfold missingByPpt missingKeys
  rw [List.mem_filter]
  refine ⟨List.mem_dedup.mpr (List.mem_map_of_mem pptKey hr0), ?_⟩
  rw [List.all_eq_true]
  intro r hr
  unfold groupRows at hr
  rw [List.mem_filter] at hr
  have hk := of_decide_eq_true hr.2
  show r.rtRemoveVal.isNone = true
  rw [hall r hr.1 hk]
  rfl

/-- Claim C1: if participant `P` has zero Ok observations for a critical
condition `C` while owning at least one record in condition `C`, then
after the missing-data stage no record of `P` remains, for any condition. -/
theorem exclusion_of_missing_critical_ppt (critical : List String)
    (df : List FRecord) (P : Nat) (C : String)
    (hC : C ∈ critical)
    (hrec : ∃ r ∈ df, r.row.ppt = P ∧ r.row.cond = C)
    (hmiss : ∀ r ∈ df, r.row.ppt = P → r.row.cond = C → r.rtRemoveVal = none) :
    ∀ r ∈ identifyMissingData critical df, r.row.ppt ≠ P := by
  obtain ⟨r0, hr0, hp0, hc0⟩ := hrec
  have hk0 : pptKey r0 ∈ missingByPpt df := by
    apply mem_missingByPpt_of df r0 hr0
    intro r hr hk
    simp only [pptKey, Prod.mk.injEq] at hk
    exact hmiss r hr (hk.1.trans hp0) (hk.2.1.trans hc0)
  have hm1 : missingByPpt df ≠ [] := List.ne_nil_of_mem hk0
  have hm2 : critical ≠ [] := List.ne_nil_of_mem hC
  have hCmem : C ∈ criticalInData critical df := by
    unfold criticalInData
    rw [List.mem_filter]
    refine ⟨hC, decide_eq_true ?_⟩
    rw [List.mem_dedup]
    have hcc : condOf (pptKey r0) = C := by simp [pptKey, condOf, hc0]
    rw [← hcc]
    exact List.mem_map_of_mem condOf hk0
  have hm3 : criticalInData critical df ≠ [] := List.ne_nil_of_mem hCmem
  have hPin : P ∈ ineligPpts critical df := by
    unfold ineligPpts
    rw [List.mem_dedup]
    have hmem : pptKey r0 ∈ (missingByPpt df).filter
        (fun k => decide (condOf k ∈ criticalInData critical df)) := by
      rw [List.mem_filter]
      refine ⟨hk0, decide_eq_true ?_⟩
      have hcc : condOf (pptKey r0) = C := by simp [pptKey, condOf, hc0]
      rw [hcc]
      exact hCmem
    have hmem2 := List.mem_map_of_mem pptOf hmem
    have hpp : pptOf (pptKey r0) = P := by simp [pptKey, pptOf, hp0]
    rwa [hpp] at hmem2
  intro r hr
  unfold identifyMissingData at hr
  rw [if_neg hm1, if_neg hm2, if_neg hm3] at hr
  have hr1 : r ∈ df.filter fun x => decide (x.row.ppt ∉ ineligPpts critical df) := by
    by_cases hf : fillerConds critical df = []
    · rwa [if_pos hf] at hr
    · rw [if_neg hf] at hr
      exact List.mem_of_mem_filter hr
  have hnot := of_decide_eq_true (List.mem_filter.mp hr1).2
  intro hEq
  exact hnot (by rw [hEq]; exact hPin)

/-- A two-row frame: participant 1 has only a Below-banded (hence missing)
record in the critical condition; participant 2 has an Ok record. -/
def w1df : List FRecord :=
  [⟨⟨1, "Crit", 7, 3, 150⟩, some Band.Below, none⟩,
   ⟨⟨2, "Crit", 7, 3, 300⟩, some Band.Ok, some 300⟩]

/-- Claim C1, witness: on `w1df` with critical condition `"Crit"`,
participant 1 is removed from every row of the output. -/
theorem exclusion_of_missing_critical_ppt_witness :
    ((identifyMissingData ["Crit"] w1df).all fun r => decide (r.row.ppt ≠ 1))
      = true := by
  rw [List.all_eq_true]
  intro r hr
  exact decide_eq_true
    (exclusion_of_missing_critical_ppt ["Crit"] w1df 1 "Crit" (by decide)
      (by decide) (by decide) r hr)

/-- Frame for the C4 counterexample: the only missing group
`(1, "Fill", 3)` is in a non-critical condition. -/
def w4adf : List FRecord :=
  [⟨⟨1, "Crit", 7, 3, 300⟩, some Band.Ok, some 300⟩,
   ⟨⟨1, "Fill", 7, 3, 150⟩, some Band.Below, none⟩]

/-- Claim C4, counterexample: `criticalConditions = ["Crit"]` is non-empty
and the group `(1, "Fill", 3)` is missing in the non-critical condition
`"Fill"`, yet the stage removes nothing: the `"Fill"` record survives.
The claim's "including in the case where no missing group key belongs to a
critical condition" is false — in that case the source takes the
`else` branch of line 169 and drops neither participants nor conditions. -/
theorem filler_not_removed_counterexample :
    missingByPpt w4adf = [(1, "Fill", 3)]
    ∧ "Fill" ∉ (["Crit"] : List String)
    ∧ identifyMissingData ["Crit"] w4adf = w4adf
    ∧ (⟨⟨1, "Fill", 7, 3, 150⟩, some Band.Below, none⟩ : FRecord)
        ∈ identifyMissingData ["Crit"] w4adf := by
  decide

/-- Claim C4 (amended): when at least one missing group key belongs to a
critical condition, every condition of the non-critical missing set is
removed from the output for all participants. -/
theorem filler_conditions_removed (critical : List String) (df : List FRecord)
    (D : String)
    (hcrit : ∃ k ∈ missingByPpt df, condOf k ∈ critical)
    (hD : ∃ k ∈ missingByPpt df, condOf k = D)
    (hDnc : D ∉ critical) :
    ∀ r ∈ identifyMissingData critical df, r.row.cond ≠ D := by
  obtain ⟨k1, hk1m, hk1c⟩ := hcrit
  obtain ⟨k2, hk2m, hk2D⟩ := hD
  have hm1 : missingByPpt df ≠ [] := List.ne_nil_of_mem hk1m
  have hm2 : critical ≠ [] := List.ne_nil_of_mem hk1c
  have hc1 : condOf k1 ∈ criticalInData critical df := by
    unfold criticalInData
    rw [List.mem_filter]
    refine ⟨hk1c, decide_eq_true ?_⟩
    rw [List.mem_dedup]
    exact List.mem_map_of_mem condOf hk1m
  have hm3 : criticalInData critical df ≠ [] := List.ne_nil_of_mem hc1
  have hDfill : D ∈ fillerConds critical df := by
    unfold fillerConds
    rw [List.mem_dedup]
    have hk2mem : k2 ∈ (missingByPpt df).filter
        (fun k => decide (condOf k ∉ criticalInData critical df)) := by
      rw [List.mem_filter]
      refine ⟨hk2m, decide_eq_true ?_⟩
      intro hmem
      exact hDnc (hk2D ▸ List.mem_of_mem_filter hmem)
    have hmem2 := List.mem_map_of_mem condOf hk2mem
    rwa [hk2D] at hmem2
  have hm4 : fillerConds critical df ≠ [] := List.ne_nil_of_mem hDfill
  intro r hr
  unfold identifyMissingData at hr
  rw [if_neg hm1, if_neg hm2, if_neg hm3, if_neg hm4] at hr
  have hnot := of_decide_eq_true (List.mem_filter.mp hr).2
  intro hEq
  exact hnot (by rw [hEq]; exact hDfill)

/-- A three-row frame with a critical missing group for participant 1 and
a filler missing group for participant 2. -/
def w4bdf : List FRecord :=
  [⟨⟨1, "Crit", 7, 3, 150⟩, some Band.Below, none⟩,
   ⟨⟨2, "Fill", 7, 3, 150⟩, some Band.Below, none⟩,
   ⟨⟨2, "Crit", 7, 3, 300⟩, some Band.Ok, some 300⟩]

/-- Claim C4 (amended), witness: on `w4bdf` the filler condition `"Fill"`
is removed from every row of the output. -/
theorem filler_conditions_removed_witness :
    ((identifyMissingData ["Crit"] w4bdf).all
      fun r => decide (r.row.cond ≠ "Fill")) = true := by
  rw [List.all_eq_true]
  intro r hr
  exact decide_eq_true
    (filler_conditions_removed ["Crit"] w4bdf "Fill" (by decide) (by decide)
      (by decide) r hr)

/-! ### Helper lemmas on the winsorizer -/

lemma stdWithFallback_nonneg (xs : List ℚ) : 0 ≤ stdWithFallback xs := by
  unfold stdWithFallback
  split_ifs
  · norm_num
  · exact Real.sqrt_nonneg _

lemma winsorBounds_fst_le_snd (k : ℚ) (hk : 0 ≤ k) (g : List (Option ℚ)) :
    (winsorBounds k g).1 ≤ (winsorBounds k g).2 := by
  unfold winsorBounds
  have h1 : (0 : ℝ) ≤ (k : ℝ) := by exact_mod_cast hk
  have h2 := stdWithFallback_nonneg (definedVals g)
  have h3 := mul_nonneg h1 h2
  simp only
  linarith

lemma trimVal_of_mem (lower upper v : ℝ) (h1 : lower ≤ v) (h2 : v ≤ upper) :
    trimVal lower upper v = v := by
  unfold trimVal
  rw [if_neg (not_lt.mpr h1), if_neg (not_lt.mpr h2)]

lemma trimVal_of_lt (lower upper v : ℝ) (h : v < lower) (hlu : lower ≤ upper) :
    trimVal lower upper v = lower := by
  unfold trimVal
  rw [if_pos h, if_neg (not_lt.mpr hlu)]

lemma trimVal_of_gt (lower upper v : ℝ) (h : upper < v) (hlu : lower ≤ upper) :
    trimVal lower upper v = upper := by
  unfold trimVal
  rw [if_neg (not_lt.mpr (le_of_lt (lt_of_le_of_lt hlu h))), if_pos h]

lemma cutBand3_ok (lower upper v : ℝ) (h1 : lower < v) (h2 : v ≤ upper) :
    cutBand3 lower upper v = Band.Ok := by
  unfold cutBand3
  rw [if_neg (not_le.mpr h1), if_pos h2]

/-! ### Claim C7 -/

lemma winsorBounds_deg_300 :
    winsorBounds 2 [some 300, some 300] = ((300 : ℝ), (300 : ℝ)) := by
  unfold winsorBounds stdWithFallback
  have hd : definedVals [some (300 : ℚ), some 300] = [300, 300] := by decide
  rw [hd]
  rw [if_neg (by norm_num)]
  have hmean : qMean [(300 : ℚ), 300] = 300 := by
    norm_num [qMean, List.sum_cons, List.sum_nil]
  have hvar : qSampleVar [(300 : ℚ), 300] = 0 := by
    norm_num [qSampleVar, hmean, List.sum_cons, List.sum_nil]
  rw [hvar, hmean, Rat.cast_zero, Real.sqrt_zero]
  norm_num

/-- Claim C7, counterexample: the group `[300, 300]` with `k = 2` has
sample standard deviation 0, so `lower = upper = 300` and line 192's
`pd.cut` raises `ValueError("Bin edges must be unique")`: no winsorized
value exists for any value of this group, falsifying the universal
clamping claim. -/
theorem winsorize_zero_variance_raises_counterexample :
    outliers 2 [some 300, some 300]
      = Except.error (PyError.valueError "Bin edges must be unique") := by
  unfold outliers
  rw [winsorBounds_deg_300]
  split_ifs with h1 h2
  · exact absurd h1 (lt_irrefl _)
  · rfl
  · exact absurd rfl h2

/-- Claim C7 (amended): whenever the `pd.cut` edges are valid, i.e.
`lower ≠ upper` (with `k ≥ 0` the bounds already satisfy
`lower ≤ upper`), the winsorizer returns one labelled/trimmed row per
input entry — nothing is deleted — and clamps each defined value to
`[lower, upper]`: `v` inside the band, `lower` below it, `upper` above
it.  When `lower = upper` (zero-variance group with at least two
observations, or `k = 0`) `pd.cut` raises
`ValueError("Bin edges must be unique")` and no winsorized output is
produced. -/
theorem winsorize_clamp (k : ℚ) (hk : 0 ≤ k) (g : List (Option ℚ)) (v : ℚ)
    (hv : some v ∈ g)
    (hnd : (winsorBounds k g).1 ≠ (winsorBounds k g).2) :
    outliers k g = Except.ok (g.map (winsorRow k g))
    ∧ (g.map (winsorRow k g)).length = g.length
    ∧ (some (cutBand3 (winsorBounds k g).1 (winsorBounds k g).2 v),
       some (trimVal (winsorBounds k g).1 (winsorBounds k g).2 v))
        ∈ g.map (winsorRow k g)
    ∧ ((winsorBounds k g).1 ≤ (v : ℝ) → (v : ℝ) ≤ (winsorBounds k g).2 →
        trimVal (winsorBounds k g).1 (winsorBounds k g).2 v = v)
    ∧ ((v : ℝ) < (winsorBounds k g).1 →
        trimVal (winsorBounds k g).1 (winsorBounds k g).2 v = (winsorBounds k g).1)
    ∧ ((winsorBounds k g).2 < (v : ℝ) →
        trimVal (winsorBounds k g).1 (winsorBounds k g).2 v = (winsorBounds k g).2) := by
  have hlu := winsorBounds_fst_le_snd k hk g
  have hok : outliers k g = Except.ok (g.map (winsorRow k g)) := by
    unfold outliers
    rw [if_neg (not_lt.mpr hlu), if_neg hnd]
  exact ⟨hok, List.length_map _ _,
    List.mem_map_of_mem (winsorRow k g) hv,
    fun h1 h2 => trimVal_of_mem _ _ _ h1 h2,
    fun h => trimVal_of_lt _ _ _ h hlu,
    fun h => trimVal_of_gt _ _ _ h hlu⟩

/-- Claim C7 (amended), witness: the single-observation group `[10]` with
`k = 1` has fallback bounds `(9.9, 10.1)`, so `outliers` succeeds and the
labelled/trimmed pair of the value 10 is in the output. -/
theorem winsorize_clamp_witness :
    outliers 1 [some 10] = Except.ok ([some 10].map (winsorRow 1 [some 10]))
    ∧ (some (cutBand3 (winsorBounds 1 [some 10]).1 (winsorBounds 1 [some 10]).2 10),
       some (trimVal (winsorBounds 1 [some 10]).1 (winsorBounds 1 [some 10]).2 10))
        ∈ [some 10].map (winsorRow 1 [some 10]) := by
  have hnd : (winsorBounds 1 [some 10]).1 ≠ (winsorBounds 1 [some 10]).2 := by
    unfold winsorBounds stdWithFallback
    have hd : definedVals [some (10 : ℚ)] = [10] := by decide
    rw [hd, if_pos (by decide)]
    have hm : qMean [(10 : ℚ)] = 10 := by
      norm_num [qMean, List.sum_cons, List.sum_nil]
    rw [hm]
    push_cast
    norm_num
  exact ⟨(winsorize_clamp 1 (by norm_num) [some 10] 10 (by decide) hnd).1,
         (winsorize_clamp 1 (by norm_num) [some 10] 10 (by decide) hnd).2.2.1⟩

/-! ### Claim C2 -/

/-- Claim C2, counterexample: a group of two equal observations has sample
standard deviation 0.0 (not NaN), so the σ = 0.1 fallback is not applied:
the bounds collapse to `[mean, mean]` instead of `[mean − k·0.1,
mean + k·0.1]`. -/
theorem fallback_sigma_zero_variance_counterexample :
    winsorBounds 2 [some 300, some 300] = ((300 : ℝ), (300 : ℝ))
    ∧ ((300 : ℝ) - ((2 : ℚ) : ℝ) * 0.1, (300 : ℝ) + ((2 : ℚ) : ℝ) * 0.1)
        ≠ ((300 : ℝ), (300 : ℝ)) := by
  constructor
  · unfold winsorBounds stdWithFallback
    have hd : definedVals [some (300 : ℚ), some 300] = [300, 300] := by decide
    rw [hd]
    rw [if_neg (by norm_num)]
    have hmean : qMean [(300 : ℚ), 300] = 300 := by
      norm_num [qMean, List.sum_cons, List.sum_nil]
    have hvar : qSampleVar [(300 : ℚ), 300] = 0 := by
      norm_num [qSampleVar, hmean, List.sum_cons, List.sum_nil]
    rw [hvar, hmean, Rat.cast_zero, Real.sqrt_zero]
    norm_num
  · intro h
    rw [Prod.mk.injEq] at h
    have h1 := h.1
    push_cast at h1
    norm_num at h1

/-- Claim C2 (amended): the fallback σ = 0.1 applies exactly when the
sample standard deviation is NaN, i.e. when the group has fewer than two
defined observations — in particular for a single-observation group the
bounds are `[mean − k·0.1, mean + k·0.1]`.  A group of two or more equal
observations instead gets σ = 0 and the degenerate bounds
`[mean, mean]`. -/
theorem fallback_sigma_single_observation (k : ℚ) (g : List (Option ℚ))
    (h1 : (definedVals g).length = 1) :
    winsorBounds k g = ((qMean (definedVals g) : ℝ) - k * 0.1,
                        (qMean (definedVals g) : ℝ) + k * 0.1) := by
  unfold winsorBounds stdWithFallback
  rw [h1]
  norm_num

/-- Claim C2 (amended), witness: the single-observation group `[500]` with
`k = 2`. -/
theorem fallback_sigma_single_observation_witness :
    winsorBounds 2 [some 500]
      = ((qMean (definedVals [some 500]) : ℝ) - ((2 : ℚ) : ℝ) * 0.1,
         (qMean (definedVals [some 500]) : ℝ) + ((2 : ℚ) : ℝ) * 0.1) :=
  fallback_sigma_single_observation 2 [some 500] (by decide)

/-! ### Claim C3 -/

lemma winsorRow_ok_of (k : ℚ) (g : List (Option ℚ)) (v : ℚ)
    (h1 : (winsorBounds k g).1 < v) (h2 : (v : ℝ) ≤ (winsorBounds k g).2) :
    winsorRow k g (some v) = (some Band.Ok, some (v : ℝ)) := by
  show (some (cutBand3 (winsorBounds k g).1 (winsorBounds k g).2 v),
        some (trimVal (winsorBounds k g).1 (winsorBounds k g).2 v)) = _
  rw [cutBand3_ok _ _ _ h1 h2, trimVal_of_mem _ _ _ (le_of_lt h1) h2]

lemma scenarioC_mean :
    qMean [(100 : ℚ), 102, 104, 106, 5000] = 5412 / 5 := by
  norm_num [qMean, List.sum_cons, List.sum_nil]

lemma scenarioC_var :
    qSampleVar [(100 : ℚ), 102, 104, 106, 5000] = 23980634 / 5 := by
  norm_num [qSampleVar, scenarioC_mean, List.sum_cons, List.sum_nil]

lemma scenarioC_std_lb :
    (1958.8 : ℝ) < stdWithFallback [(100 : ℚ), 102, 104, 106, 5000] := by
  unfold stdWithFallback
  rw [if_neg (by decide)]
  rw [scenarioC_var, Real.lt_sqrt (by norm_num)]
  push_cast
  norm_num

lemma scenarioC_bounds :
    (winsorBounds 2 [some 100, some 102, some 104, some 106, some 5000]).1
        < (100 : ℝ)
    ∧ (5000 : ℝ)
        < (winsorBounds 2 [some 100, some 102, some 104, some 106, some 5000]).2 := by
  unfold winsorBounds
  have hd : definedVals [some (100 : ℚ), some 102, some 104, some 106, some 5000]
      = [100, 102, 104, 106, 5000] := by decide
  rw [hd, scenarioC_mean]
  have hs := scenarioC_std_lb
  constructor
  · push_cast
    linarith
  · push_cast
    linarith

/-- The `outliers` group function on Scenario C's group `[100, 102, 104,
106, 5000]` with `SD = 2`: the sample standard deviation is
`√4796126.8 ≈ 2190.0`, so the bounds are about `[-3297.6, 5462.4]` and
every value — 5000 included — is labelled Ok and left unchanged. -/
lemma scenarioC_eval :
    outliers 2 [some 100, some 102, some 104, some 106, some 5000] = Except.ok
      [(some Band.Ok, some ((100 : ℚ) : ℝ)), (some Band.Ok, some ((102 : ℚ) : ℝ)),
       (some Band.Ok, some ((104 : ℚ) : ℝ)), (some Band.Ok, some ((106 : ℚ) : ℝ)),
       (some Band.Ok, some ((5000 : ℚ) : ℝ))] := by
  obtain ⟨hl, hu⟩ := scenarioC_bounds
  have hlt : (winsorBounds 2 [some 100, some 102, some 104, some 106, some 5000]).1
      < (winsorBounds 2 [some 100, some 102, some 104, some 106, some 5000]).2 := by
    linarith
  unfold outliers
  rw [if_neg (not_lt.mpr (le_of_lt hlt)), if_neg (ne_of_lt hlt)]
  simp only [List.map_cons, List.map_nil]
  rw [winsorRow_ok_of 2 _ 100 (by push_cast at hl ⊢; linarith)
        (by push_cast at hu ⊢; linarith),
      winsorRow_ok_of 2 _ 102 (by push_cast at hl ⊢; linarith)
        (by push_cast at hu ⊢; linarith),
      winsorRow_ok_of 2 _ 104 (by push_cast at hl ⊢; linarith)
        (by push_cast at hu ⊢; linarith),
      winsorRow_ok_of 2 _ 106 (by push_cast at hl ⊢; linarith)
        (by push_cast at hu ⊢; linarith),
      winsorRow_ok_of 2 _ 5000 (by push_cast at hl ⊢; linarith)
        (by push_cast at hu ⊢; linarith)]

/-- Claim C3, counterexample: in the group `[100, 102, 104, 106, 5000]`
with `SD = 2` the value 5000 is labelled `Ok` — not `Above` — and its
trimmed value is 5000 itself, not the upper bound. -/
theorem scenarioC_5000_not_clamped_counterexample :
    (outliers 2 [some 100, some 102, some 104, some 106, some 5000]).map
        List.getLast?
      = Except.ok (some (some Band.Ok, some ((5000 : ℚ) : ℝ)))
    ∧ Band.Ok ≠ Band.Above := by
  rw [scenarioC_eval]
  exact ⟨rfl, by decide⟩

/-- Claim C3 (amended): with `k = 2` the sample standard deviation of
`[100, 102, 104, 106, 5000]` is `√4796126.8 ≈ 2190`, the upper bound
`≈ 5462.4` exceeds 5000, so `pd.cut`'s edges are valid and all five
values — 5000 included — are labelled Ok and left unchanged. -/
theorem scenarioC_all_ok :
    outliers 2 [some 100, some 102, some 104, some 106, some 5000] = Except.ok
      [(some Band.Ok, some ((100 : ℚ) : ℝ)), (some Band.Ok, some ((102 : ℚ) : ℝ)),
       (some Band.Ok, some ((104 : ℚ) : ℝ)), (some Band.Ok, some ((106 : ℚ) : ℝ)),
       (some Band.Ok, some ((5000 : ℚ) : ℝ))] :=
  scenarioC_eval

/-! ### Claim C8 -/

/-- Claim C8: when a required column (here `RT`) is absent, `get_RTdata`
raises `NameError` — not the documented `ValueError` naming the missing
columns — because line 228 reads the undefined name `col`.  The second
conjunct shows the other half of the claim: a critical condition absent
from the data does raise the documented `ValueError` before any stage
runs.  In both cases the exception propagates before line 282, so
`self.RTdata` is never written. -/
theorem missing_required_column_raises_name_error :
    get_RTdata [] true (some (200, 5000)) true (some 2)
        ⟨["PPT", "WordPos", "Condition", "Item"], [], none⟩
      = Except.error (PyError.nameError "col")
    ∧ get_RTdata ["Nope"] true (some (200, 5000)) true (some 2)
        ⟨requiredColumns, [⟨1, "A", 1, 1, 300⟩], none⟩
      = Except.error (PyError.valueError
          "All conditions provided in critical_conditions must be in supplied self.data") := by
  constructor <;> rfl

/-! ### Claim C10 -/

/-- Claim C10: `get_RTdata` never changes the source frame `self.data`:
whatever the arguments, a successful run returns a state with the same
columns and rows in `data`, writing only `RTdata` (errors return no state
at all). -/
theorem get_RTdata_preserves_source_data (critical : List String)
    (summarize : Bool) (rex : Option (ℚ × ℚ)) (identify : Bool)
    (fo : Option ℚ) (s : ProjectState) :
    (get_RTdata critical summarize rex identify fo s).map
        (fun t => (t.dataCols, t.data))
      = (get_RTdata critical summarize rex identify fo s).map
        (fun _ => (s.dataCols, s.data)) := by
  unfold get_RTdata
  cases get_RTdata_frames critical summarize rex identify fo s <;> rfl

end DlabBEH
